import Mathlib

/-!
# Memoh MCP entry point (`cmd/mcp/main.go`)

A shallow embedding of the process entry point of the Memoh MCP server and of
the tool registry / dispatch loop that the specification describes behind the
two calls `mcp.RegisterTools(server)` and `server.Run(...)`.

* Part I embeds `main` from the Go source.  The collaborators it calls
  (`version.GetInfo`, `gomcp.NewServer`, `mcp.RegisterTools`, `Server.Run`) are
  parameters of the embedding; `log.Fatal` and `context.Background` follow the Go
  standard library.
* Part II models the tool registry and the dispatch loop from the
  specification, since their code is not part of the visible sources.
-/

namespace Memoh

/-! ## Part I: `main` -/

/-- The `gomcp.Implementation` value: the name and version the server announces. -/
structure Implementation where
  Name : String
  Version : String
deriving DecidableEq, Repr

/-- Go contexts as far as `main` is concerned: `context.Background()` is the root
context, which has no cancel function, no deadline and is never cancelled; every
other context is derived from a parent and may be cancelled. -/
inductive Context where
  | Background : Context
  | Derived (parent : Context) : Context
deriving DecidableEq, Repr

/-- Whether some holder of the context is able to cancel it. -/
def Context.cancellable : Context → Bool
  | Context.Background => false
  | Context.Derived _ => true

/-- The transports of the protocol SDK: `&gomcp.StdioTransport{}` (standard input for
requests, standard output for responses) and all the others, told apart by name. -/
inductive Transport where
  | StdioTransport : Transport
  | Other (name : String) : Transport
deriving DecidableEq, Repr

/-- The collaborators of `main`.  `σ` is the state behind the `*gomcp.Server`
pointer, `ε` the type of Go `error` values, `ω` the type of `gomcp.ServerOptions`.

* `GetInfo` is the string `version.GetInfo()` returns.
* `NewServer impl opts` is the state of the freshly constructed server.
* `RegisterTools s` is the state of the server after `mcp.RegisterTools` has run on
  it.  `main` calls it as a statement: the call yields nothing to `main` but its
  effect on the server.
* `Run s ctx t` is what `server.Run(ctx, t)` returns on a server in state `s`:
  `none` for a `nil` error. -/
structure SDK (σ ε ω : Type) where
  GetInfo : String
  NewServer : Implementation → Option ω → σ
  RegisterTools : σ → σ
  Run : σ → Context → Transport → Option ε

/-- The calls `main` makes, in the order in which Go evaluates them. -/
inductive Call (σ ε ω : Type) where
  | GetInfo : Call σ ε ω
  | NewServer (impl : Implementation) (opts : Option ω) : Call σ ε ω
  | RegisterTools (server : σ) : Call σ ε ω
  | Background : Call σ ε ω
  | Run (server : σ) (ctx : Context) (transport : Transport) : Call σ ε ω
  | Fatal (err : ε) : Call σ ε ω

/-- Whether a call is a tool registration. -/
def Call.isRegisterTools {σ ε ω : Type} : Call σ ε ω → Bool
  | Call.RegisterTools _ => true
  | _ => false

/-- Whether a call is a `Run` of the server. -/
def Call.isRun {σ ε ω : Type} : Call σ ε ω → Bool
  | Call.Run _ _ _ => true
  | _ => false

/-- Whether a call constructs a server. -/
def Call.isNewServer {σ ε ω : Type} : Call σ ε ω → Bool
  | Call.NewServer _ _ => true
  | _ => false

/-- Whether a call is a `log.Fatal`. -/
def Call.isFatal {σ ε ω : Type} : Call σ ε ω → Bool
  | Call.Fatal _ => true
  | _ => false

/-- The server a `Run` call is made on. -/
def Call.runServer? {σ ε ω : Type} : Call σ ε ω → Option σ
  | Call.Run server _ _ => some server
  | _ => none

/-- The observable behaviour of the process: the calls made so far, the diagnostics
written to the error stream, and the exit status once the process has ended. -/
structure Process (σ ε ω : Type) where
  calls : List (Call σ ε ω)
  stderr : List ε
  exit : Option Nat

/-- The process before `main` starts. -/
def Process.start {σ ε ω : Type} : Process σ ε ω :=
  { calls := [], stderr := [], exit := none }

/-- Record one call. -/
def Process.call {σ ε ω : Type} (p : Process σ ε ω) (c : Call σ ε ω) : Process σ ε ω :=
  { p with calls := p.calls ++ [c] }

/-- Go's `log.Fatal(err)`: print `err` on the standard logger, which writes to the
error stream, then `os.Exit(1)`. -/
def logFatal {σ ε ω : Type} (p : Process σ ε ω) (err : ε) : Process σ ε ω :=
  { calls := p.calls ++ [Call.Fatal err], stderr := p.stderr ++ [err], exit := some 1 }

/-- Returning from `main` ends the process with exit status 0. -/
def Process.returnFromMain {σ ε ω : Type} (p : Process σ ε ω) : Process σ ε ω :=
  { p with exit := some 0 }

/-- The function `main` of `cmd/mcp/main.go`:
```go
server := gomcp.NewServer(
    &gomcp.Implementation{Name: "memoh-mcp", Version: version.GetInfo()},
    nil,
)
mcp.RegisterTools(server)
if err := server.Run(context.Background(), &gomcp.StdioTransport{}); err != nil {
    log.Fatal(err)
}
```
-/
def main {σ ε ω : Type} (sdk : SDK σ ε ω) : Process σ ε ω :=
  let p : Process σ ε ω := Process.start
  let info := sdk.GetInfo
  let p := p.call Call.GetInfo
  let impl : Implementation := { Name := "memoh-mcp", Version := info }
  let server := sdk.NewServer impl none
  let p := p.call (Call.NewServer impl none)
  let server' := sdk.RegisterTools server
  let p := p.call (Call.RegisterTools server)
  let ctx := Context.Background
  let p := p.call Call.Background
  let p := p.call (Call.Run server' ctx Transport.StdioTransport)
  match sdk.Run server' ctx Transport.StdioTransport with
  | some err => logFatal p err
  | none => p.returnFromMain

/-- The server `main` constructs. -/
def constructed {σ ε ω : Type} (sdk : SDK σ ε ω) : σ :=
  sdk.NewServer { Name := "memoh-mcp", Version := sdk.GetInfo } none

/-- The server `main` constructs, after tool registration. -/
def registered {σ ε ω : Type} (sdk : SDK σ ε ω) : σ :=
  sdk.RegisterTools (constructed sdk)

/-- What `Run` returns in `main`. -/
def runOutcome {σ ε ω : Type} (sdk : SDK σ ε ω) : Option ε :=
  sdk.Run (registered sdk) Context.Background Transport.StdioTransport

/-- What a Go call does, as its caller sees it: it returns a value, or it panics
with a value. -/
inductive Outcome (π α : Type) where
  | returns (value : α) : Outcome π α
  | panics (value : π) : Outcome π α

/-- The collaborators of `main` when their calls may panic; `π` is the type of panic
values.  `context.Background()` and the two composite literals cannot panic. -/
structure PanickingSDK (σ ε ω π : Type) where
  GetInfo : Outcome π String
  NewServer : Implementation → Option ω → Outcome π σ
  RegisterTools : σ → Outcome π σ
  Run : σ → Context → Transport → Outcome π (Option ε)

/-- How the process ends: `main` returns or `log.Fatal` exits, with the behaviour
observed; or a panic leaves `main`, which has no deferred call and no `recover`, and
the Go runtime ends the process, after the calls made so far, reporting the panic
value. -/
inductive Ending (σ ε ω π : Type) where
  | ended (p : Process σ ε ω) : Ending σ ε ω π
  | crashed (calls : List (Call σ ε ω)) (value : π) : Ending σ ε ω π

/-- The calls made before the process ended. -/
def Ending.calls {σ ε ω π : Type} : Ending σ ε ω π → List (Call σ ε ω)
  | Ending.ended p => p.calls
  | Ending.crashed calls _ => calls

/-- The exit status of the process: the Go runtime ends a program whose panic is not
recovered with exit status 2. -/
def Ending.exit {σ ε ω π : Type} : Ending σ ε ω π → Option Nat
  | Ending.ended p => p.exit
  | Ending.crashed _ _ => some 2

/-- The function `main` of `cmd/mcp/main.go` once more, statement by statement, with
collaborators that may panic: a panic in a call ends `main` at that call. -/
def mainWithPanics {σ ε ω π : Type} (sdk : PanickingSDK σ ε ω π) : Ending σ ε ω π :=
  let p : Process σ ε ω := Process.start
  let p := p.call Call.GetInfo
  match sdk.GetInfo with
  | Outcome.panics v => Ending.crashed p.calls v
  | Outcome.returns info =>
    let impl : Implementation := { Name := "memoh-mcp", Version := info }
    let p := p.call (Call.NewServer impl none)
    match sdk.NewServer impl none with
    | Outcome.panics v => Ending.crashed p.calls v
    | Outcome.returns server =>
      let p := p.call (Call.RegisterTools server)
      match sdk.RegisterTools server with
      | Outcome.panics v => Ending.crashed p.calls v
      | Outcome.returns server' =>
        let ctx := Context.Background
        let p := p.call Call.Background
        let p := p.call (Call.Run server' ctx Transport.StdioTransport)
        match sdk.Run server' ctx Transport.StdioTransport with
        | Outcome.panics v => Ending.crashed p.calls v
        | Outcome.returns (some err) => Ending.ended (logFatal p err)
        | Outcome.returns none => Ending.ended p.returnFromMain

/-- Collaborators that always return, seen as collaborators that may panic. -/
def SDK.toPanicking {σ ε ω : Type} (π : Type) (sdk : SDK σ ε ω) : PanickingSDK σ ε ω π :=
  { GetInfo := Outcome.returns sdk.GetInfo
    NewServer := fun impl opts => Outcome.returns (sdk.NewServer impl opts)
    RegisterTools := fun s => Outcome.returns (sdk.RegisterTools s)
    Run := fun s ctx t => Outcome.returns (sdk.Run s ctx t) }

/-- Sample collaborators: the server state is the list of registered tool names; the
registration adds `echo`, or panics with `regPanic` when one is given; `Run`
returns nil. -/
def samplePanickingSDK (regPanic : Option String) :
    PanickingSDK (List String) String Unit String :=
  { GetInfo := Outcome.returns "v0.1.0"
    NewServer := fun _ _ => Outcome.returns []
    RegisterTools := fun s =>
      match regPanic with
      | none => Outcome.returns (s ++ ["echo"])
      | some v => Outcome.panics v
    Run := fun _ _ _ => Outcome.returns none }

/-! ## Part II: tool registry and dispatch loop -/

/-- Modelled from the spec: the error taxonomy of section 7, which the visible
sources do not declare.  `DuplicateNameError` and `InvalidSchemaError` are raised at
registration time, `UnknownToolError`, `ProtocolFramingError` and
`HandlerExecutionError` are reported per request, `TransportIOError` ends the
session.  An `UnknownToolError` identifies the tool that was asked for. -/
inductive ServerError where
  | DuplicateNameError : ServerError
  | InvalidSchemaError : ServerError
  | UnknownToolError (tool : String) : ServerError
  | ProtocolFramingError : ServerError
  | HandlerExecutionError : ServerError
  | TransportIOError : ServerError
deriving DecidableEq, Repr

/-- Modelled from the spec: the correlation token of section 3, missing from the
visible sources; the spec's examples use numbers. -/
abbrev CorrelationId : Type := Nat

/-- Modelled from the spec: the `ToolDescriptor` of section 3, missing from the
visible sources: a name, an input schema and a handler from arguments to a result
or an error.  A runtime fault raised by a handler is its `Except.error` value,
as the design notes prescribe. -/
structure ToolDescriptor (Schema Payload : Type) where
  name : String
  schema : Schema
  handler : Payload → Except String Payload

/-- Modelled from the spec: the `Request` of section 3, missing from the visible
sources. -/
structure Request (Payload : Type) where
  id : CorrelationId
  tool : String
  arguments : Payload

/-- Modelled from the spec: the `Response` of section 3, missing from the visible
sources: the correlation token of the request it answers and either a result or an
error descriptor.  The answer to a malformed input has no request to take a token
from and carries none. -/
structure Response (Payload : Type) where
  id : Option CorrelationId
  body : Except ServerError Payload

/-- Modelled from the spec: the Tool Registry of section 4.1, missing from the
visible sources: a lookup table from tool name to descriptor, in registration
order. -/
structure Registry (Schema Payload : Type) where
  tools : List (ToolDescriptor Schema Payload)

/-- Modelled from the spec: the registry before any registration (the registry code
is missing from the visible sources). -/
def Registry.empty {Schema Payload : Type} : Registry Schema Payload :=
  { tools := [] }

/-- Modelled from the spec: whether a name is present in the registry (the registry
code is missing from the visible sources). -/
def Registry.contains {Schema Payload : Type} (reg : Registry Schema Payload)
    (name : String) : Bool :=
  reg.tools.any (fun d => d.name == name)

/-- Modelled from the spec: `resolve(name)` of section 4.1, missing from the visible
sources: the descriptor registered under `name`; fails with `UnknownToolError` if
absent. -/
def Registry.resolve {Schema Payload : Type} (reg : Registry Schema Payload)
    (name : String) : Except ServerError (ToolDescriptor Schema Payload) :=
  match reg.tools.find? (fun d => d.name == name) with
  | some d => Except.ok d
  | none => Except.error (ServerError.UnknownToolError name)

/-- Modelled from the spec: `register(name, schema, handler)` of section 4.1, missing
from the visible sources: fails with `DuplicateNameError` if the name is already
present, fails with `InvalidSchemaError` if the schema is malformed, and otherwise
adds the descriptor.  What makes a schema malformed is the parameter `malformed`.
The result is the outcome of the call and the registry after it. -/
def Registry.register {Schema Payload : Type} (malformed : Schema → Bool)
    (reg : Registry Schema Payload) (name : String) (schema : Schema)
    (handler : Payload → Except String Payload) :
    Except ServerError Unit × Registry Schema Payload :=
  if reg.contains name then (Except.error ServerError.DuplicateNameError, reg)
  else if malformed schema then (Except.error ServerError.InvalidSchemaError, reg)
  else (Except.ok (), { tools := reg.tools ++ [{ name := name, schema := schema, handler := handler }] })

/-- Modelled from the spec: the registration phase (its code is missing from the
visible sources): the descriptors are registered one after the other, and the first
failing `register` call ends the phase with its error. -/
def Registry.registerAll {Schema Payload : Type} (malformed : Schema → Bool) :
    Registry Schema Payload → List (ToolDescriptor Schema Payload) →
    Except ServerError (Registry Schema Payload)
  | reg, [] => Except.ok reg
  | reg, d :: ds =>
    match reg.register malformed d.name d.schema d.handler with
    | (Except.ok _, reg') => Registry.registerAll malformed reg' ds
    | (Except.error e, _) => Except.error e

/-- Modelled from the spec: what the transport delivers when the dispatch loop reads
from it (the transport code is missing from the visible sources): a well-formed
request, a malformed input, or an unrecoverable I/O failure. -/
inductive Incoming (Payload : Type) where
  | request (r : Request Payload) : Incoming Payload
  | malformed : Incoming Payload
  | ioFailure : Incoming Payload

/-- Modelled from the spec: the states of the dispatch loop of section 4.2, missing
from the visible sources:
`AwaitingRequest → Resolving → Invoking → Responding → AwaitingRequest`, and the
terminal state `Closed`. -/
inductive LoopState (Schema Payload : Type) where
  | AwaitingRequest : LoopState Schema Payload
  | Resolving (r : Request Payload) : LoopState Schema Payload
  | Invoking (r : Request Payload) (d : ToolDescriptor Schema Payload) : LoopState Schema Payload
  | Responding (resp : Response Payload) : LoopState Schema Payload
  | Closed : LoopState Schema Payload

/-- Modelled from the spec: whether the loop has reached `Closed`, the terminal state
of section 4.2 (the loop code is missing from the visible sources). -/
def LoopState.isClosed {Schema Payload : Type} : LoopState Schema Payload → Bool
  | LoopState.Closed => true
  | _ => false

/-- Modelled from the spec: one session of the dispatch loop (its code is missing
from the visible sources): the state of the loop, what the transport has yet to
deliver (nothing left means the transport is closed), the responses written so far,
oldest first, and the failure propagated to the caller. -/
structure Session (Schema Payload : Type) where
  state : LoopState Schema Payload
  incoming : List (Incoming Payload)
  written : List (Response Payload)
  failure : Option ServerError

/-- Modelled from the spec: one transition of the dispatch loop of section 4.2, whose
code is missing from the visible sources.  `writeOk k` tells whether the transport
accepts the write attempted after `k` responses have been written.

* awaiting a request: transport closure or an unrecoverable I/O failure closes the
  loop; a malformed input is answered with a protocol-error response; a request is
  resolved next;
* resolving: an `UnknownToolError` is answered with an error response identifying
  the unknown tool; otherwise the handler is invoked next;
* invoking: a handler failure is answered with a generic failure descriptor, a
  result with the result;
* responding: the response is written and the loop awaits the next request; a write
  failure is fatal: the loop closes and the failure is propagated. -/
def step {Schema Payload : Type} (reg : Registry Schema Payload) (writeOk : Nat → Bool)
    (s : Session Schema Payload) : Session Schema Payload :=
  match s.state with
  | LoopState.AwaitingRequest =>
    match s.incoming with
    | [] => { s with state := LoopState.Closed }
    | Incoming.request r :: rest => { s with state := LoopState.Resolving r, incoming := rest }
    | Incoming.malformed :: rest =>
      { s with
        state := LoopState.Responding
          { id := none, body := Except.error ServerError.ProtocolFramingError },
        incoming := rest }
    | Incoming.ioFailure :: rest =>
      { s with
        state := LoopState.Closed, incoming := rest,
        failure := some ServerError.TransportIOError }
  | LoopState.Resolving r =>
    match reg.resolve r.tool with
    | Except.ok d => { s with state := LoopState.Invoking r d }
    | Except.error e =>
      { s with state := LoopState.Responding { id := some r.id, body := Except.error e } }
  | LoopState.Invoking r d =>
    match d.handler r.arguments with
    | Except.ok v =>
      { s with state := LoopState.Responding { id := some r.id, body := Except.ok v } }
    | Except.error _ =>
      { s with
        state := LoopState.Responding
          { id := some r.id, body := Except.error ServerError.HandlerExecutionError } }
  | LoopState.Responding resp =>
    if writeOk s.written.length then
      { s with state := LoopState.AwaitingRequest, written := s.written ++ [resp] }
    else
      { s with state := LoopState.Closed, failure := some ServerError.TransportIOError }
  | LoopState.Closed => s

/-- Modelled from the spec: the dispatch loop (its code is missing from the visible
sources) taken through `n` transitions. -/
def run {Schema Payload : Type} (reg : Registry Schema Payload) (writeOk : Nat → Bool) :
    Nat → Session Schema Payload → Session Schema Payload
  | 0, s => s
  | n + 1, s => run reg writeOk n (step reg writeOk s)

/-- Modelled from the spec: a session at its start (the loop code is missing from
the visible sources): awaiting the first request, nothing written. -/
def Session.start {Schema Payload : Type} (incoming : List (Incoming Payload)) :
    Session Schema Payload :=
  { state := LoopState.AwaitingRequest, incoming := incoming, written := [], failure := none }

/-- Modelled from the spec: the response section 4.2 prescribes for a request (the
loop code is missing from the visible sources): the result of the handler of the tool
it names, a generic failure descriptor if the handler fails, and the
`UnknownToolError` if no such tool is registered. -/
def answer {Schema Payload : Type} (reg : Registry Schema Payload) (r : Request Payload) :
    Response Payload :=
  match reg.resolve r.tool with
  | Except.error e => { id := some r.id, body := Except.error e }
  | Except.ok d =>
    match d.handler r.arguments with
    | Except.ok v => { id := some r.id, body := Except.ok v }
    | Except.error _ => { id := some r.id, body := Except.error ServerError.HandlerExecutionError }

/-- Modelled from the spec: the correlation ids of the responses section 4.2 makes the
loop owe for what the transport delivers (the loop code is missing from the visible
sources): one per request, an empty one per malformed input, and nothing from an I/O
failure on, which closes the loop. -/
def expectedIds {Payload : Type} : List (Incoming Payload) → List (Option CorrelationId)
  | [] => []
  | Incoming.request r :: rest => some r.id :: expectedIds rest
  | Incoming.malformed :: rest => none :: expectedIds rest
  | Incoming.ioFailure :: _ => []

/-- Modelled from the spec: the correlation ids of the responses a session of the
dispatch loop (missing from the visible sources) still owes: the one for the
request in flight, then those for what the transport has yet to deliver. -/
def Session.owedIds {Schema Payload : Type} (s : Session Schema Payload) :
    List (Option CorrelationId) :=
  match s.state with
  | LoopState.AwaitingRequest => expectedIds s.incoming
  | LoopState.Resolving r => some r.id :: expectedIds s.incoming
  | LoopState.Invoking r _ => some r.id :: expectedIds s.incoming
  | LoopState.Responding resp => resp.id :: expectedIds s.incoming
  | LoopState.Closed => []

/-- Modelled from the spec: the tool `echo` of the end-to-end example of section 8
(no tool is part of the visible sources): its handler returns its arguments. -/
def echoTool : ToolDescriptor Unit String :=
  { name := "echo", schema := (), handler := fun args => Except.ok args }

/-- A tool whose handler always raises a runtime fault. -/
def faultyTool : ToolDescriptor Unit String :=
  { name := "boom", schema := (), handler := fun _ => Except.error "fault" }

/-- The registry holding `echo` and `boom`. -/
def sampleRegistry : Registry Unit String :=
  { tools := [echoTool, faultyTool] }

/-! ## Theorems on `main` -/

section MainTheorems

variable {σ ε ω : Type}

/-- The whole behaviour of `main`, in closed form. -/
theorem main_eq (sdk : SDK σ ε ω) :
    main sdk =
      { calls :=
          [Call.GetInfo,
           Call.NewServer { Name := "memoh-mcp", Version := sdk.GetInfo } none,
           Call.RegisterTools (constructed sdk),
           Call.Background,
           Call.Run (registered sdk) Context.Background Transport.StdioTransport]
          ++ (runOutcome sdk).toList.map Call.Fatal,
        stderr := (runOutcome sdk).toList,
        exit := some (if (runOutcome sdk).isSome then 1 else 0) } := by
  unfold main runOutcome registered constructed
  cases h : sdk.Run (sdk.RegisterTools (sdk.NewServer
      { Name := "memoh-mcp", Version := sdk.GetInfo } none))
      Context.Background Transport.StdioTransport <;>
    simp [Process.start, Process.call, Process.returnFromMain, logFatal, h]

/-- C1: `main` ends the process with exit status 1 exactly when `Run` returns a
non-nil error, and then the error stream holds exactly that error, written by the
one `log.Fatal` call, which is the last call made; when `Run` returns nil, `main`
returns with exit status 0, nothing is written to the error stream and `log.Fatal`
is not called. -/
theorem main_exit_status_iff_run_error (sdk : SDK σ ε ω) :
    (main sdk).exit = some (if (runOutcome sdk).isSome then 1 else 0) ∧
    ((main sdk).exit = some 1 ↔ (runOutcome sdk).isSome = true) ∧
    ((main sdk).exit = some 0 ↔ runOutcome sdk = none) ∧
    (main sdk).stderr = (runOutcome sdk).toList ∧
    (main sdk).calls.filter Call.isFatal = (runOutcome sdk).toList.map Call.Fatal ∧
    ((main sdk).calls.getLast?.bind fun c => if c.isFatal then some c else none)
      = (runOutcome sdk).map Call.Fatal := by
  rw [main_eq]
  cases runOutcome sdk <;> simp [Call.isFatal]

/-- C2: in `main`, the calls that touch the server are, in this order, `NewServer`,
`RegisterTools`, `Run`; tool registration is called exactly once, before `Run`, and
no registration call is made from the moment `Run` is entered. -/
theorem main_registers_once_before_run (sdk : SDK σ ε ω) :
    (main sdk).calls.filter (fun c => c.isNewServer || c.isRegisterTools || c.isRun)
      = [Call.NewServer { Name := "memoh-mcp", Version := sdk.GetInfo } none,
         Call.RegisterTools (constructed sdk),
         Call.Run (registered sdk) Context.Background Transport.StdioTransport] ∧
    ((main sdk).calls.filter Call.isRegisterTools).length = 1 ∧
    (((main sdk).calls.takeWhile fun c => !c.isRun).filter Call.isRegisterTools).length = 1 ∧
    ((main sdk).calls.dropWhile fun c => !c.isRun).filter Call.isRegisterTools = [] := by
  rw [main_eq]
  cases runOutcome sdk <;>
    simp [Call.isNewServer, Call.isRegisterTools, Call.isRun, List.takeWhile, List.dropWhile]

/-- With collaborators that return, `mainWithPanics` is `main`. -/
theorem mainWithPanics_of_returns (π : Type) (sdk : SDK σ ε ω) :
    mainWithPanics (sdk.toPanicking π) = Ending.ended (main sdk) := by
  unfold mainWithPanics main SDK.toPanicking
  cases h : sdk.Run (sdk.RegisterTools (sdk.NewServer
      { Name := "memoh-mcp", Version := sdk.GetInfo } none))
      Context.Background Transport.StdioTransport <;>
    simp [h]

/-- C3: `main` binds nothing from `mcp.RegisterTools(server)`, so a failed
registration reaches it only as a panic of that call; whenever the registration
fails in this way, `main` ends right there: the calls made are `GetInfo`,
`NewServer` and `RegisterTools`, the server is not run, and the process ends with
exit status 2, reporting the panic value. -/
theorem registration_failure_aborts_startup {π : Type} (sdk : PanickingSDK σ ε ω π)
    (info : String) (server : σ) (v : π)
    (hinfo : sdk.GetInfo = Outcome.returns info)
    (hnew : sdk.NewServer { Name := "memoh-mcp", Version := info } none
      = Outcome.returns server)
    (hfail : sdk.RegisterTools server = Outcome.panics v) :
    mainWithPanics sdk
      = Ending.crashed
          [Call.GetInfo, Call.NewServer { Name := "memoh-mcp", Version := info } none,
           Call.RegisterTools server] v ∧
    (mainWithPanics sdk).calls.filter Call.isRun = [] ∧
    (mainWithPanics sdk).exit = some 2 := by
  have hmain : mainWithPanics sdk
      = Ending.crashed
          [Call.GetInfo, Call.NewServer { Name := "memoh-mcp", Version := info } none,
           Call.RegisterTools server] v := by
    unfold mainWithPanics
    simp [hinfo, hnew, hfail, Process.start, Process.call]
  rw [hmain]
  exact ⟨rfl, by simp [Ending.calls, Call.isRun], rfl⟩

/-- Witness for C3: a registration that panics on a malformed schema. -/
theorem registration_failure_aborts_startup_witness :
    (samplePanickingSDK (some "invalid schema")).GetInfo = Outcome.returns "v0.1.0" ∧
    (samplePanickingSDK (some "invalid schema")).NewServer
        { Name := "memoh-mcp", Version := "v0.1.0" } none
      = Outcome.returns [] ∧
    (samplePanickingSDK (some "invalid schema")).RegisterTools []
      = Outcome.panics "invalid schema" ∧
    (mainWithPanics (samplePanickingSDK (some "invalid schema"))).calls.filter Call.isRun
      = [] ∧
    (mainWithPanics (samplePanickingSDK (some "invalid schema"))).exit = some 2 :=
  ⟨rfl, rfl, rfl,
    (registration_failure_aborts_startup (samplePanickingSDK (some "invalid schema"))
      "v0.1.0" [] "invalid schema" rfl rfl rfl).2⟩

/-- C9: `main` calls `Run` exactly once, on the standard-input/output transport and
with the background context, which nobody can cancel; once `Run` has returned, with
or without an error, `main` makes no call other than the `log.Fatal` of the error:
it neither runs the server again nor constructs another one. -/
theorem main_runs_once_over_stdio (sdk : SDK σ ε ω) :
    (main sdk).calls.filter Call.isRun
      = [Call.Run (registered sdk) Context.Background Transport.StdioTransport] ∧
    Context.Background.cancellable = false ∧
    ((main sdk).calls.dropWhile fun c => !c.isRun).tail
      = (runOutcome sdk).toList.map Call.Fatal ∧
    (((main sdk).calls.dropWhile fun c => !c.isRun).tail.filter
        fun c => c.isRun || c.isNewServer) = [] := by
  rw [main_eq]
  cases runOutcome sdk <;>
    simp [Call.isRun, Call.isNewServer, Context.cancellable, List.dropWhile]

/-- What the trace of `main` shows about the server: the one it is constructed
from, the call made on it before `Run`, and the one `Run` is called on. -/
theorem trace_facts (impl : Implementation) (s0 s1 : σ) (outcome : Option ε) :
    ([Call.GetInfo, Call.NewServer impl none, Call.RegisterTools s0, Call.Background,
        Call.Run s1 Context.Background Transport.StdioTransport]
        ++ outcome.toList.map (Call.Fatal : ε → Call σ ε ω)).filterMap Call.runServer?
      = [s1] ∧
    ([Call.GetInfo, Call.NewServer impl none, Call.RegisterTools s0, Call.Background,
        Call.Run s1 Context.Background Transport.StdioTransport]
        ++ outcome.toList.map (Call.Fatal : ε → Call σ ε ω)).filter Call.isNewServer
      = [Call.NewServer impl none] ∧
    ((([Call.GetInfo, Call.NewServer impl none, Call.RegisterTools s0, Call.Background,
        Call.Run s1 Context.Background Transport.StdioTransport]
        ++ outcome.toList.map (Call.Fatal : ε → Call σ ε ω)).dropWhile
          fun (c : Call σ ε ω) => !c.isNewServer).tail.takeWhile fun (c : Call σ ε ω) => !c.isRun)
      = [Call.RegisterTools s0, Call.Background] ∧
    ([Call.GetInfo, Call.NewServer impl none, Call.RegisterTools s0, Call.Background,
        Call.Run s1 Context.Background Transport.StdioTransport]
        ++ outcome.toList.map (Call.Fatal : ε → Call σ ε ω)).filter Call.isFatal
      = outcome.toList.map Call.Fatal := by
  cases outcome <;>
    simp [Call.isRun, Call.isNewServer, Call.isFatal, Call.runServer?, List.dropWhile,
      List.takeWhile]

/-- C10: the server `main` runs is the result of `RegisterTools` on the server that
`NewServer` constructed from the implementation named "memoh-mcp", with the version
`version.GetInfo()` returned and nil options: `Run` is called on that server and on
no other, `RegisterTools` is the only call made on the server between its
construction and `Run`, and the error stream, the exit status and the `log.Fatal`
call of the process are those of what `Run` returns on that very server. -/
theorem main_runs_registered_server (sdk : SDK σ ε ω) :
    (main sdk).calls.filterMap Call.runServer?
      = [sdk.RegisterTools
          (sdk.NewServer { Name := "memoh-mcp", Version := sdk.GetInfo } none)] ∧
    (main sdk).calls.filter Call.isNewServer
      = [Call.NewServer { Name := "memoh-mcp", Version := sdk.GetInfo } none] ∧
    (((main sdk).calls.dropWhile fun c => !c.isNewServer).tail.takeWhile fun c => !c.isRun)
      = [Call.RegisterTools
          (sdk.NewServer { Name := "memoh-mcp", Version := sdk.GetInfo } none),
         Call.Background] ∧
    (main sdk).stderr
      = (sdk.Run
          (sdk.RegisterTools
            (sdk.NewServer { Name := "memoh-mcp", Version := sdk.GetInfo } none))
          Context.Background Transport.StdioTransport).toList ∧
    (main sdk).exit
      = some (if (sdk.Run
          (sdk.RegisterTools
            (sdk.NewServer { Name := "memoh-mcp", Version := sdk.GetInfo } none))
          Context.Background Transport.StdioTransport).isSome then 1 else 0) ∧
    (main sdk).calls.filter Call.isFatal
      = (sdk.Run
          (sdk.RegisterTools
            (sdk.NewServer { Name := "memoh-mcp", Version := sdk.GetInfo } none))
          Context.Background Transport.StdioTransport).toList.map Call.Fatal ∧
    main sdk
      = { calls :=
            [Call.GetInfo,
             Call.NewServer { Name := "memoh-mcp", Version := sdk.GetInfo } none,
             Call.RegisterTools
               (sdk.NewServer { Name := "memoh-mcp", Version := sdk.GetInfo } none),
             Call.Background,
             Call.Run
               (sdk.RegisterTools
                 (sdk.NewServer { Name := "memoh-mcp", Version := sdk.GetInfo } none))
               Context.Background Transport.StdioTransport]
            ++ (sdk.Run
                (sdk.RegisterTools
                  (sdk.NewServer { Name := "memoh-mcp", Version := sdk.GetInfo } none))
                Context.Background Transport.StdioTransport).toList.map Call.Fatal,
          stderr :=
            (sdk.Run
              (sdk.RegisterTools
                (sdk.NewServer { Name := "memoh-mcp", Version := sdk.GetInfo } none))
              Context.Background Transport.StdioTransport).toList,
          exit :=
            some (if (sdk.Run
              (sdk.RegisterTools
                (sdk.NewServer { Name := "memoh-mcp", Version := sdk.GetInfo } none))
              Context.Background Transport.StdioTransport).isSome then 1 else 0) } := by
  have hmain := main_eq sdk
  simp only [runOutcome, registered, constructed] at hmain
  exact ⟨by rw [hmain]; exact (trace_facts _ _ _ _).1,
    by rw [hmain]; exact (trace_facts _ _ _ _).2.1,
    by rw [hmain]; exact (trace_facts _ _ _ _).2.2.1,
    by rw [hmain],
    by rw [hmain],
    by rw [hmain]; exact (trace_facts _ _ _ _).2.2.2,
    hmain⟩

end MainTheorems

/-! ## Theorems on the tool registry -/

section RegistryTheorems

variable {Schema Payload : Type}

/-- A name the registry does not contain resolves to `UnknownToolError`. -/
theorem Registry.resolve_of_not_contains (reg : Registry Schema Payload) (name : String)
    (h : reg.contains name = false) :
    reg.resolve name = Except.error (ServerError.UnknownToolError name) := by
  unfold Registry.contains at h
  unfold Registry.resolve
  have hnone : reg.tools.find? (fun d => d.name == name) = none := by
    rw [List.find?_eq_none]
    intro d hd hname
    have hany : reg.tools.any (fun d => d.name == name) = true :=
      List.any_eq_true.mpr ⟨d, hd, hname⟩
    rw [h] at hany
    cases hany
  rw [hnone]

/-- A name that resolves is contained in the registry, under that very name. -/
theorem Registry.contains_of_resolve (reg : Registry Schema Payload) (name : String)
    (d : ToolDescriptor Schema Payload) (h : reg.resolve name = Except.ok d) :
    reg.contains name = true ∧ d.name = name := by
  unfold Registry.resolve at h
  unfold Registry.contains
  cases hfind : reg.tools.find? (fun d => d.name == name) with
  | none => rw [hfind] at h; cases h
  | some d' =>
    rw [hfind] at h
    have hd : d' = d := by injection h
    subst hd
    have hname : (d'.name == name) = true := by
      have hsome := List.find?_some hfind
      exact hsome
    exact ⟨List.any_eq_true.mpr ⟨d', List.mem_of_find?_eq_some hfind, hname⟩,
      by simpa using hname⟩

/-- Adding a descriptor at the end of the table leaves every resolution that
succeeded as it was. -/
theorem Registry.resolve_append_of_resolve (reg : Registry Schema Payload) (name : String)
    (d e : ToolDescriptor Schema Payload) (h : reg.resolve name = Except.ok d) :
    Registry.resolve { tools := reg.tools ++ [e] } name = Except.ok d := by
  unfold Registry.resolve at h ⊢
  cases hfind : reg.tools.find? (fun d => d.name == name) with
  | none => rw [hfind] at h; cases h
  | some d' =>
    rw [hfind] at h
    simp only [List.find?_append, hfind]
    simpa using h

/-- A descriptor added at the end of a table that does not contain its name is what
its name resolves to. -/
theorem Registry.resolve_append_new (reg : Registry Schema Payload)
    (e : ToolDescriptor Schema Payload) (h : reg.contains e.name = false) :
    Registry.resolve { tools := reg.tools ++ [e] } e.name = Except.ok e := by
  have hres := Registry.resolve_of_not_contains reg e.name h
  unfold Registry.resolve at hres ⊢
  cases hfind : reg.tools.find? (fun d => d.name == e.name) with
  | some d' => rw [hfind] at hres; cases hres
  | none => simp [List.find?_append, hfind]

/-- What a successful `register` call does to the registry. -/
theorem Registry.register_ok (malformed : Schema → Bool) (reg reg' : Registry Schema Payload)
    (name : String) (schema : Schema) (handler : Payload → Except String Payload)
    (u : Unit)
    (h : reg.register malformed name schema handler = (Except.ok u, reg')) :
    reg.contains name = false ∧ malformed schema = false ∧
    reg' = { tools := reg.tools ++ [{ name := name, schema := schema, handler := handler }] } := by
  unfold Registry.register at h
  cases hc : reg.contains name with
  | true => simp [hc] at h
  | false =>
    cases hm : malformed schema with
    | true => simp [hc, hm] at h
    | false =>
      simp [hc, hm] at h
      exact ⟨rfl, rfl, h.symm⟩

/-- The registration phase keeps what was registered before it and registers every
descriptor it is given. -/
theorem Registry.registerAll_resolve (malformed : Schema → Bool)
    (ds : List (ToolDescriptor Schema Payload)) :
    ∀ (reg reg' : Registry Schema Payload),
      Registry.registerAll malformed reg ds = Except.ok reg' →
      (∀ name d, reg.resolve name = Except.ok d → reg'.resolve name = Except.ok d) ∧
      (∀ d, d ∈ ds → reg'.resolve d.name = Except.ok d) := by
  induction ds with
  | nil =>
    intro reg reg' h
    simp only [Registry.registerAll] at h
    have hreg : reg = reg' := by injection h
    subst hreg
    exact ⟨fun _ _ hd => hd, fun d hd => by cases hd⟩
  | cons e ds ih =>
    intro reg reg' h
    simp only [Registry.registerAll] at h
    cases hr : reg.register malformed e.name e.schema e.handler with
    | mk out reg1 =>
      cases out with
      | error err => rw [hr] at h; cases h
      | ok u =>
        rw [hr] at h
        obtain ⟨hnew, _, hreg1⟩ := Registry.register_ok malformed reg reg1 _ _ _ u hr
        obtain ⟨hkeep, hall⟩ := ih reg1 reg' h
        have he : reg1.resolve e.name = Except.ok e := by
          rw [hreg1]
          exact Registry.resolve_append_new reg e hnew
        refine ⟨?_, ?_⟩
        · intro name d hd
          apply hkeep
          rw [hreg1]
          exact Registry.resolve_append_of_resolve reg name d _ hd
        · intro d hd
          rcases List.mem_cons.mp hd with hde | hds
          · subst hde
            exact hkeep _ _ he
          · exact hall d hds

/-- C4: in a registry built from the empty one by a sequence of successful `register`
calls, every name registered resolves to exactly the descriptor (name, schema,
handler) that was passed to `register` for it. -/
theorem resolve_returns_registered_descriptor (malformed : Schema → Bool)
    (ds : List (ToolDescriptor Schema Payload)) (reg : Registry Schema Payload)
    (hbuilt : Registry.registerAll malformed Registry.empty ds = Except.ok reg)
    (d : ToolDescriptor Schema Payload) (hd : d ∈ ds) :
    reg.resolve d.name
      = Except.ok { name := d.name, schema := d.schema, handler := d.handler } :=
  (Registry.registerAll_resolve malformed ds Registry.empty reg hbuilt).2 d hd

/-- Witness for C4: after `echo` and `boom` have been registered, `boom` resolves to
the descriptor it was registered with. -/
theorem resolve_returns_registered_descriptor_witness :
    Registry.registerAll (fun _ => false) Registry.empty [echoTool, faultyTool]
      = Except.ok sampleRegistry ∧
    faultyTool ∈ [echoTool, faultyTool] ∧
    sampleRegistry.resolve faultyTool.name
      = Except.ok { name := faultyTool.name, schema := faultyTool.schema,
                    handler := faultyTool.handler } :=
  ⟨by simp [Registry.registerAll, Registry.register, Registry.contains, Registry.empty,
      echoTool, faultyTool, sampleRegistry],
   by simp,
   resolve_returns_registered_descriptor (fun _ => false) [echoTool, faultyTool]
     sampleRegistry
     (by simp [Registry.registerAll, Registry.register, Registry.contains, Registry.empty,
       echoTool, faultyTool, sampleRegistry])
     faultyTool (by simp)⟩

/-- C5: when a name is already present in the registry, a further `register` call
with that name fails with `DuplicateNameError`, whatever schema and handler it is
given, and leaves the registry unchanged: the name still resolves to the descriptor
of the first registration. -/
theorem register_duplicate_fails (malformed : Schema → Bool)
    (reg : Registry Schema Payload) (name : String) (first : ToolDescriptor Schema Payload)
    (hpresent : reg.resolve name = Except.ok first)
    (schema : Schema) (handler : Payload → Except String Payload) :
    reg.register malformed name schema handler
      = (Except.error ServerError.DuplicateNameError, reg) ∧
    (reg.register malformed name schema handler).2.resolve name = Except.ok first := by
  have hc := (Registry.contains_of_resolve reg name first hpresent).1
  have hreg : reg.register malformed name schema handler
      = (Except.error ServerError.DuplicateNameError, reg) := by
    unfold Registry.register
    simp [hc]
  exact ⟨hreg, by rw [hreg]; exact hpresent⟩

/-- Witness for C5: registering another tool under the name `echo`. -/
theorem register_duplicate_fails_witness :
    sampleRegistry.resolve "echo" = Except.ok echoTool ∧
    (sampleRegistry.register (fun _ => false) "echo" () faultyTool.handler
      = (Except.error ServerError.DuplicateNameError, sampleRegistry) ∧
     (sampleRegistry.register (fun _ => false) "echo" () faultyTool.handler).2.resolve "echo"
      = Except.ok echoTool) :=
  ⟨by simp [Registry.resolve, sampleRegistry, echoTool, faultyTool],
   register_duplicate_fails (fun _ => false) sampleRegistry "echo" echoTool
     (by simp [Registry.resolve, sampleRegistry, echoTool, faultyTool]) () faultyTool.handler⟩

end RegistryTheorems

/-! ## Theorems on the dispatch loop -/

section LoopTheorems

variable {Schema Payload : Type}

/-- Transitions compose. -/
theorem run_add (reg : Registry Schema Payload) (writeOk : Nat → Bool) (a b : Nat) :
    ∀ s : Session Schema Payload,
      run reg writeOk (a + b) s = run reg writeOk b (run reg writeOk a s) := by
  induction a with
  | zero => intro s; simp [run]
  | succ a ih =>
    intro s
    have hab : a + 1 + b = (a + b) + 1 := by omega
    rw [hab]
    simp only [run]
    exact ih _

/-- A closed loop stays as it is. -/
theorem run_of_closed (reg : Registry Schema Payload) (writeOk : Nat → Bool) (n : Nat) :
    ∀ s : Session Schema Payload, s.state = LoopState.Closed → run reg writeOk n s = s := by
  induction n with
  | zero => intro s _; rfl
  | succ n ih =>
    intro s hs
    have hstep : step reg writeOk s = s := by
      unfold step
      rw [hs]
    simp only [run, hstep]
    exact ih s hs

/-- The response to a request carries the id of the request. -/
theorem answer_id (reg : Registry Schema Payload) (r : Request Payload) :
    (answer reg r).id = some r.id := by
  unfold answer
  cases hres : reg.resolve r.tool with
  | error e => rfl
  | ok d =>
    cases hh : d.handler r.arguments <;> simp [hh]

/-- A request for an unknown tool is answered in three transitions. -/
theorem run_unknown_tool (reg : Registry Schema Payload) (writeOk : Nat → Bool)
    (r : Request Payload) (rest : List (Incoming Payload)) (w : List (Response Payload))
    (f : Option ServerError) (e : ServerError)
    (hres : reg.resolve r.tool = Except.error e) (hw : writeOk w.length = true) :
    run reg writeOk 3
        { state := LoopState.AwaitingRequest, incoming := Incoming.request r :: rest,
          written := w, failure := f }
      = { state := LoopState.AwaitingRequest, incoming := rest,
          written := w ++ [{ id := some r.id, body := Except.error e }], failure := f } := by
  simp [run, step, hres, hw]

/-- A request for a registered tool is answered in four transitions. -/
theorem run_known_tool (reg : Registry Schema Payload) (writeOk : Nat → Bool)
    (r : Request Payload) (rest : List (Incoming Payload)) (w : List (Response Payload))
    (f : Option ServerError) (d : ToolDescriptor Schema Payload)
    (hres : reg.resolve r.tool = Except.ok d) (hw : writeOk w.length = true) :
    run reg writeOk 4
        { state := LoopState.AwaitingRequest, incoming := Incoming.request r :: rest,
          written := w, failure := f }
      = { state := LoopState.AwaitingRequest, incoming := rest,
          written := w ++ [answer reg r], failure := f } := by
  cases hh : d.handler r.arguments <;> simp [run, step, answer, hres, hw, hh]

/-- Every request is answered within four transitions when the write is accepted. -/
theorem run_request (reg : Registry Schema Payload) (writeOk : Nat → Bool)
    (r : Request Payload) (rest : List (Incoming Payload)) (w : List (Response Payload))
    (f : Option ServerError) (hw : writeOk w.length = true) :
    ∃ k, k ≤ 4 ∧
      run reg writeOk k
        { state := LoopState.AwaitingRequest, incoming := Incoming.request r :: rest,
          written := w, failure := f }
      = { state := LoopState.AwaitingRequest, incoming := rest,
          written := w ++ [answer reg r], failure := f } := by
  cases hres : reg.resolve r.tool with
  | error e =>
    refine ⟨3, by omega, ?_⟩
    rw [run_unknown_tool reg writeOk r rest w f e hres hw]
    simp [answer, hres]
  | ok d => exact ⟨4, by omega, run_known_tool reg writeOk r rest w f d hres hw⟩

/-- A sequence of requests is answered, in order, within four transitions each. -/
theorem run_requests (reg : Registry Schema Payload) (writeOk : Nat → Bool)
    (reqs : List (Request Payload)) :
    ∀ (w : List (Response Payload)) (f : Option ServerError),
      (∀ k, k < reqs.length → writeOk (w.length + k) = true) →
      ∃ k, k ≤ 4 * reqs.length ∧
        run reg writeOk k
          { state := LoopState.AwaitingRequest, incoming := reqs.map Incoming.request,
            written := w, failure := f }
        = { state := LoopState.AwaitingRequest, incoming := [],
            written := w ++ reqs.map (answer reg), failure := f } := by
  induction reqs with
  | nil => intro w f _; exact ⟨0, by simp, by simp [run]⟩
  | cons r reqs ih =>
    intro w f hw
    obtain ⟨k1, hk1, h1⟩ := run_request reg writeOk r (reqs.map Incoming.request) w f
      (by simpa using hw 0 (by simp))
    obtain ⟨k2, hk2, h2⟩ := ih (w ++ [answer reg r]) f (by
      intro k hk
      have hk' := hw (k + 1) (by simp; omega)
      simpa [Nat.add_assoc, Nat.add_comm 1 k] using hk')
    refine ⟨k1 + k2, by simp; omega, ?_⟩
    rw [run_add, List.map_cons, h1, h2]
    simp

/-- One transition keeps the ids written so far a prefix of the ids owed at the
start, and, while the loop is open, written and owed ids together are all of them. -/
theorem step_owed (reg : Registry Schema Payload) (writeOk : Nat → Bool)
    (all : List (Option CorrelationId)) (s : Session Schema Payload)
    (hpre : s.written.map Response.id <+: all)
    (hopen : s.state.isClosed = false → s.written.map Response.id ++ s.owedIds = all) :
    (step reg writeOk s).written.map Response.id <+: all ∧
    ((step reg writeOk s).state.isClosed = false →
      (step reg writeOk s).written.map Response.id ++ (step reg writeOk s).owedIds = all) := by
  obtain ⟨state, incoming, written, failure⟩ := s
  cases state with
  | AwaitingRequest =>
    have hall := hopen rfl
    cases incoming with
    | nil => exact ⟨hpre, by simp [step, LoopState.isClosed]⟩
    | cons i rest =>
      cases i with
      | request r => exact ⟨hpre, fun _ => by simpa [step, Session.owedIds, expectedIds] using hall⟩
      | malformed => exact ⟨hpre, fun _ => by simpa [step, Session.owedIds, expectedIds] using hall⟩
      | ioFailure => exact ⟨hpre, by simp [step, LoopState.isClosed]⟩
  | Resolving r =>
    have hall := hopen rfl
    cases hres : reg.resolve r.tool with
    | error e =>
      exact ⟨by simpa [step, hres] using hpre,
        fun _ => by simpa [step, hres, Session.owedIds] using hall⟩
    | ok d =>
      exact ⟨by simpa [step, hres] using hpre,
        fun _ => by simpa [step, hres, Session.owedIds] using hall⟩
  | Invoking r d =>
    have hall := hopen rfl
    cases hh : d.handler r.arguments with
    | error e =>
      exact ⟨by simpa [step, hh] using hpre,
        fun _ => by simpa [step, hh, Session.owedIds] using hall⟩
    | ok v =>
      exact ⟨by simpa [step, hh] using hpre,
        fun _ => by simpa [step, hh, Session.owedIds] using hall⟩
  | Responding resp =>
    have hall := hopen rfl
    cases hw : writeOk written.length with
    | false =>
      exact ⟨by simpa [step, hw] using hpre, by simp [step, hw, LoopState.isClosed]⟩
    | true =>
      have hall' : (List.map Response.id written ++ [resp.id]) ++ expectedIds incoming = all := by
        simpa [Session.owedIds] using hall
      refine ⟨?_, fun _ => ?_⟩
      · simp only [step, hw, if_true, List.map_append, List.map_cons, List.map_nil]
        exact ⟨expectedIds incoming, hall'⟩
      · simpa [step, hw, Session.owedIds] using hall'
  | Closed => exact ⟨by simpa [step] using hpre, by simp [step, LoopState.isClosed]⟩

/-- At every moment of a session, the ids of the responses written so far are a
prefix of the ids the loop owes for what the transport delivers. -/
theorem run_written_ids_in_order (reg : Registry Schema Payload) (writeOk : Nat → Bool)
    (incoming : List (Incoming Payload)) (n : Nat) :
    (run reg writeOk n (Session.start incoming)).written.map Response.id
      <+: expectedIds incoming := by
  have key : ∀ (n : Nat) (s : Session Schema Payload),
      s.written.map Response.id <+: expectedIds incoming →
      (s.state.isClosed = false →
        s.written.map Response.id ++ s.owedIds = expectedIds incoming) →
      (run reg writeOk n s).written.map Response.id <+: expectedIds incoming := by
    intro n
    induction n with
    | zero => intro s hpre _; exact hpre
    | succ n ih =>
      intro s hpre hopen
      obtain ⟨h1, h2⟩ := step_owed reg writeOk (expectedIds incoming) s hpre hopen
      simp only [run]
      exact ih _ h1 h2
  apply key
  · simp [Session.start]
  · intro _
    simp [Session.start, Session.owedIds]

/-- The ids owed for a sequence of requests are the ids of the requests. -/
theorem expectedIds_requests (reqs : List (Request Payload)) :
    expectedIds (reqs.map Incoming.request) = reqs.map (fun r => some r.id) := by
  induction reqs with
  | nil => rfl
  | cons r reqs ih => simp [expectedIds, ih]

/-- C6: a request naming a tool that is not in the registry is answered, on a
transport that accepts the write, with one error response that carries the id of
the request and the `UnknownToolError` identifying the tool; the loop does not enter
`Closed` on the way and awaits the next request; and a valid request that follows
in the same session is served with the result of its handler. -/
theorem unknown_tool_reported_and_loop_open (reg : Registry Schema Payload)
    (writeOk : Nat → Bool) (r : Request Payload) (rest : List (Incoming Payload))
    (w : List (Response Payload)) (f : Option ServerError)
    (hunknown : reg.contains r.tool = false) (hw : writeOk w.length = true) :
    run reg writeOk 3
        { state := LoopState.AwaitingRequest, incoming := Incoming.request r :: rest,
          written := w, failure := f }
      = { state := LoopState.AwaitingRequest, incoming := rest,
          written := w ++ [{ id := some r.id,
                             body := Except.error (ServerError.UnknownToolError r.tool) }],
          failure := f } ∧
    (∀ k, k ≤ 3 →
      (run reg writeOk k
        { state := LoopState.AwaitingRequest, incoming := Incoming.request r :: rest,
          written := w, failure := f }).state.isClosed = false) ∧
    (∀ (r2 : Request Payload) (rest2 : List (Incoming Payload))
        (d : ToolDescriptor Schema Payload) (v : Payload),
      rest = Incoming.request r2 :: rest2 →
      reg.resolve r2.tool = Except.ok d →
      d.handler r2.arguments = Except.ok v →
      writeOk (w.length + 1) = true →
      run reg writeOk 7
          { state := LoopState.AwaitingRequest, incoming := Incoming.request r :: rest,
            written := w, failure := f }
        = { state := LoopState.AwaitingRequest, incoming := rest2,
            written := w ++ [{ id := some r.id,
                               body := Except.error (ServerError.UnknownToolError r.tool) },
                             { id := some r2.id, body := Except.ok v }],
            failure := f } ∧
      (∀ k, k ≤ 7 →
        (run reg writeOk k
          { state := LoopState.AwaitingRequest, incoming := Incoming.request r :: rest,
            written := w, failure := f }).state.isClosed = false)) := by
  have hres := Registry.resolve_of_not_contains reg r.tool hunknown
  refine ⟨run_unknown_tool reg writeOk r rest w f _ hres hw, ?_, ?_⟩
  · intro k hk
    interval_cases k <;> simp [run, step, hres, hw, LoopState.isClosed]
  · intro r2 rest2 d v hrest hres2 hh hw2
    subst hrest
    refine ⟨?_, ?_⟩
    · simp [run, step, hres, hw, hres2, hh, hw2]
    · intro k hk
      interval_cases k <;> simp [run, step, hres, hw, hres2, hh, hw2, LoopState.isClosed]

/-- Witness for C6: the spec's end-to-end example, a request for `missing` followed
by a request for `echo`. -/
theorem unknown_tool_reported_and_loop_open_witness :
    sampleRegistry.contains "missing" = false ∧
    run sampleRegistry (fun _ => true) 3
        { state := LoopState.AwaitingRequest,
          incoming := [Incoming.request { id := 2, tool := "missing", arguments := "" },
                       Incoming.request { id := 3, tool := "echo", arguments := "x" }],
          written := [], failure := none }
      = { state := LoopState.AwaitingRequest,
          incoming := [Incoming.request { id := 3, tool := "echo", arguments := "x" }],
          written := [{ id := some 2,
                        body := Except.error (ServerError.UnknownToolError "missing") }],
          failure := none } ∧
    run sampleRegistry (fun _ => true) 7
        { state := LoopState.AwaitingRequest,
          incoming := [Incoming.request { id := 2, tool := "missing", arguments := "" },
                       Incoming.request { id := 3, tool := "echo", arguments := "x" }],
          written := [], failure := none }
      = { state := LoopState.AwaitingRequest, incoming := [],
          written := [{ id := some 2,
                        body := Except.error (ServerError.UnknownToolError "missing") },
                      { id := some 3, body := Except.ok "x" }],
          failure := none } :=
  have hmissing : sampleRegistry.contains "missing" = false := by
    simp [Registry.contains, sampleRegistry, echoTool, faultyTool]
  have hecho : sampleRegistry.resolve "echo" = Except.ok echoTool := by
    simp [Registry.resolve, sampleRegistry, echoTool, faultyTool]
  have key := unknown_tool_reported_and_loop_open sampleRegistry (fun _ => true)
    { id := 2, tool := "missing", arguments := "" }
    [Incoming.request { id := 3, tool := "echo", arguments := "x" }] [] none hmissing rfl
  ⟨hmissing, key.1,
    (key.2.2 { id := 3, tool := "echo", arguments := "x" } [] echoTool "x" rfl hecho rfl rfl).1⟩

/-- C7: in a session in which the transport delivers a sequence of requests, at
every moment and whatever the transport does with the writes, the ids of the
responses written so far are a prefix of the ids of the requests in arrival order;
and when the transport accepts the writes, the loop comes to an end within four
transitions per request with nothing propagated as a failure, having written
exactly one response per request, in arrival order, each with the id of its
request. -/
theorem responses_in_request_order (reg : Registry Schema Payload) (writeOk : Nat → Bool)
    (reqs : List (Request Payload)) :
    (∀ n, (run reg writeOk n (Session.start (reqs.map Incoming.request))).written.map
        Response.id <+: reqs.map (fun r => some r.id)) ∧
    ((∀ k, k < reqs.length → writeOk k = true) →
      ∀ n, 4 * reqs.length + 1 ≤ n →
        (run reg writeOk n (Session.start (reqs.map Incoming.request))).state.isClosed = true ∧
        (run reg writeOk n (Session.start (reqs.map Incoming.request))).failure = none ∧
        (run reg writeOk n (Session.start (reqs.map Incoming.request))).written
          = reqs.map (answer reg) ∧
        (run reg writeOk n (Session.start (reqs.map Incoming.request))).written.map Response.id
          = reqs.map (fun r => some r.id)) := by
  refine ⟨?_, ?_⟩
  · intro n
    have h := run_written_ids_in_order reg writeOk (reqs.map Incoming.request) n
    rwa [expectedIds_requests] at h
  · intro hw n hn
    obtain ⟨k, hk, hrun⟩ := run_requests reg writeOk reqs [] none (by simpa using hw)
    have hsplit : n = k + (1 + (n - (k + 1))) := by omega
    have hclosed : run reg writeOk n (Session.start (reqs.map Incoming.request))
        = { state := LoopState.Closed, incoming := [], written := reqs.map (answer reg),
            failure := none } := by
      rw [hsplit, run_add]
      unfold Session.start
      rw [hrun, run_add]
      simp only [run, step, List.nil_append]
      exact run_of_closed reg writeOk _ _ rfl
    rw [hclosed]
    refine ⟨rfl, rfl, rfl, ?_⟩
    simp [answer_id, Function.comp_def]

/-- Witness for C7: three requests, for `echo`, for an unknown tool and for a tool
whose handler fails. -/
theorem responses_in_request_order_witness :
    (∀ k, k < 3 → (fun _ : Nat => true) k = true) ∧ 4 * 3 + 1 ≤ 13 ∧
    (run sampleRegistry (fun _ => true) 13
        (Session.start
          ([{ id := 1, tool := "echo", arguments := "x" },
            { id := 2, tool := "missing", arguments := "" },
            { id := 3, tool := "boom", arguments := "" }].map Incoming.request))).written.map
        Response.id
      = [some 1, some 2, some 3] :=
  ⟨fun _ _ => rfl, by decide,
    ((responses_in_request_order sampleRegistry (fun _ => true)
      [{ id := 1, tool := "echo", arguments := "x" },
       { id := 2, tool := "missing", arguments := "" },
       { id := 3, tool := "boom", arguments := "" }]).2 (fun _ _ => rfl) 13 (by decide)).2.2.2⟩

/-- C8: a request whose handler raises a runtime fault is answered, on a transport
that accepts the write, with exactly one error response, which carries the id of
the request and the generic failure descriptor; the loop does not enter `Closed` on
the way and awaits the next request; and a valid request that follows in the same
session is served with the result of its handler. -/
theorem handler_fault_reported_and_loop_open (reg : Registry Schema Payload)
    (writeOk : Nat → Bool) (r : Request Payload) (rest : List (Incoming Payload))
    (w : List (Response Payload)) (f : Option ServerError)
    (d : ToolDescriptor Schema Payload) (fault : String)
    (hres : reg.resolve r.tool = Except.ok d)
    (hfault : d.handler r.arguments = Except.error fault)
    (hw : writeOk w.length = true) :
    run reg writeOk 4
        { state := LoopState.AwaitingRequest, incoming := Incoming.request r :: rest,
          written := w, failure := f }
      = { state := LoopState.AwaitingRequest, incoming := rest,
          written := w ++ [{ id := some r.id,
                             body := Except.error ServerError.HandlerExecutionError }],
          failure := f } ∧
    (∀ k, k ≤ 4 →
      (run reg writeOk k
        { state := LoopState.AwaitingRequest, incoming := Incoming.request r :: rest,
          written := w, failure := f }).state.isClosed = false ∧
      ((run reg writeOk k
        { state := LoopState.AwaitingRequest, incoming := Incoming.request r :: rest,
          written := w, failure := f }).written.length ≤ w.length + 1)) ∧
    (∀ (r2 : Request Payload) (rest2 : List (Incoming Payload))
        (d2 : ToolDescriptor Schema Payload) (v : Payload),
      rest = Incoming.request r2 :: rest2 →
      reg.resolve r2.tool = Except.ok d2 →
      d2.handler r2.arguments = Except.ok v →
      writeOk (w.length + 1) = true →
      run reg writeOk 8
          { state := LoopState.AwaitingRequest, incoming := Incoming.request r :: rest,
            written := w, failure := f }
        = { state := LoopState.AwaitingRequest, incoming := rest2,
            written := w ++ [{ id := some r.id,
                               body := Except.error ServerError.HandlerExecutionError },
                             { id := some r2.id, body := Except.ok v }],
            failure := f } ∧
      (∀ k, k ≤ 8 →
        (run reg writeOk k
          { state := LoopState.AwaitingRequest, incoming := Incoming.request r :: rest,
            written := w, failure := f }).state.isClosed = false)) := by
  refine ⟨?_, ?_, ?_⟩
  · simp [run, step, hres, hfault, hw]
  · intro k hk
    interval_cases k <;> simp [run, step, hres, hfault, hw, LoopState.isClosed]
  · intro r2 rest2 d2 v hrest hres2 hh hw2
    subst hrest
    refine ⟨?_, ?_⟩
    · simp [run, step, hres, hfault, hw, hres2, hh, hw2]
    · intro k hk
      interval_cases k <;>
        simp [run, step, hres, hfault, hw, hres2, hh, hw2, LoopState.isClosed]

/-- Witness for C8: a request for `boom`, whose handler fails, followed by a
request for `echo`. -/
theorem handler_fault_reported_and_loop_open_witness :
    sampleRegistry.resolve "boom" = Except.ok faultyTool ∧
    faultyTool.handler "" = Except.error "fault" ∧
    run sampleRegistry (fun _ => true) 4
        { state := LoopState.AwaitingRequest,
          incoming := [Incoming.request { id := 4, tool := "boom", arguments := "" },
                       Incoming.request { id := 5, tool := "echo", arguments := "y" }],
          written := [], failure := none }
      = { state := LoopState.AwaitingRequest,
          incoming := [Incoming.request { id := 5, tool := "echo", arguments := "y" }],
          written := [{ id := some 4,
                        body := Except.error ServerError.HandlerExecutionError }],
          failure := none } ∧
    run sampleRegistry (fun _ => true) 8
        { state := LoopState.AwaitingRequest,
          incoming := [Incoming.request { id := 4, tool := "boom", arguments := "" },
                       Incoming.request { id := 5, tool := "echo", arguments := "y" }],
          written := [], failure := none }
      = { state := LoopState.AwaitingRequest, incoming := [],
          written := [{ id := some 4,
                        body := Except.error ServerError.HandlerExecutionError },
                      { id := some 5, body := Except.ok "y" }],
          failure := none } :=
  have hboom : sampleRegistry.resolve "boom" = Except.ok faultyTool := by
    simp [Registry.resolve, sampleRegistry, echoTool, faultyTool, List.find?]
  have hecho : sampleRegistry.resolve "echo" = Except.ok echoTool := by
    simp [Registry.resolve, sampleRegistry, echoTool, faultyTool]
  have key := handler_fault_reported_and_loop_open sampleRegistry (fun _ => true)
    { id := 4, tool := "boom", arguments := "" }
    [Incoming.request { id := 5, tool := "echo", arguments := "y" }] [] none
    faultyTool "fault" hboom rfl rfl
  ⟨hboom, rfl, key.1,
    (key.2.2 { id := 5, tool := "echo", arguments := "y" } [] echoTool "y" rfl hecho rfl rfl).1⟩

end LoopTheorems

end Memoh
